import Mathlib

/-!
Verification development for the library-run patrol NPCs.

This file gives a shallow embedding of the two NPC enemy classes of the
repository, `OldMan` (js/sprites/OldMan.js) and `Bully` (js/sprites/Bully.js,
present as src/unnamed/part_007): the camera-relative spawn and exit geometry,
the patrol state machines, the timer bookkeeping and disposal logic, the
attack budget, and the back-pain phase-stall logic.  Positions are modelled as
integers, timers as explicitly emitted effect values, and each JS method as a
pure function from the entity state to an updated state together with the list
of timers it schedules.
-/

/-- Camera viewport descriptor read by the NPCs each frame:
the current horizontal scroll and the viewport width
(`scene.cameras.main.scrollX` and `.width` in the source). -/
structure CameraFrame where
  scrollX : Int
  viewportWidth : Int
deriving Repr, DecidableEq

/-- Side of the viewport an NPC enters from. -/
inductive Side where
  | Left
  | Right
deriving Repr, DecidableEq

/-- Modelled from the spec, section 4.2: the pure spawn-geometry helper
`spawnX(frame, side)`: `side=Right -> frame.scrollX + frame.viewportWidth +
SPAWN_OFFSET`; `side=Left -> frame.scrollX - SPAWN_OFFSET` (SPAWN_OFFSET is
100 in both archetypes).  The repository has no such shared helper; each call
site inlines the arithmetic, and this definition is the spec-side reference
the code-side spawn placements are compared against. -/
def specSpawnX (frame : CameraFrame) (side : Side) : Int :=
  match side with
  | .Right => frame.scrollX + frame.viewportWidth + 100
  | .Left => frame.scrollX - 100

namespace OldMan

/-- Constant THROW_INTERVAL of OldMan.js (milliseconds between newspapers). -/
def THROW_INTERVAL : Nat := 2500

/-- Constant PATROL_SPEED of OldMan.js (pixels per second). -/
def PATROL_SPEED : Int := 60

/-- Constant SPAWN_OFFSET of OldMan.js (pixels beyond the screen edge). -/
def SPAWN_OFFSET : Int := 100

/-- Constant SCREEN_LEFT of OldMan.js (a fixed world coordinate). -/
def SCREEN_LEFT : Int := -80

/-- Constant SCREEN_RIGHT of OldMan.js (a fixed world coordinate). -/
def SCREEN_RIGHT : Int := 880

/-- Constant SQUIRREL_DELAY of OldMan.js. -/
def SQUIRREL_DELAY : Nat := 1000

/-- Constant MAX_BACKPAIN_PER_PATROL of OldMan.js. -/
def MAX_BACKPAIN_PER_PATROL : Nat := 1

/-- Patrol states of OldMan.js: the string field `currentState` ranges over
these five values (the attack state is called `patrolling` there). -/
inductive Phase where
  | waiting
  | entering
  | patrolling
  | backpain
  | exiting
deriving Repr, DecidableEq

/-- Timers the OldMan schedules, tagged by call site; `throwRepeat` carries
its repeat interval, the one-shot tags correspond to the `delayedCall`s. -/
inductive Timer where
  | initialEntry
  | enterTransit
  | patrolStart
  | phase
  | squirrel
  | recovery
  | reentry
  | throwRepeat (interval : Nat)
deriving Repr, DecidableEq

/-- Mutable instance fields of OldMan.js that the claims touch.  The class
keeps no `pendingTimers` registry and no `isDestroyed` flag; only the
repeating throw timer and the one-shot phase timer are held in fields
(`throwTimer`, `phaseTimer`), modelled here as activity flags.  `newspapers`
is the length of the `this.newspapers` array. -/
structure State where
  x : Int
  y : Int
  groundY : Int
  velocityX : Int
  visible : Bool
  active : Bool
  flipX : Bool
  currentState : Phase
  patrolDirection : Int
  backPainCount : Nat
  backPainThisPatrol : Nat
  newspapers : Nat
  throwTimerActive : Bool
  phaseTimerActive : Bool
deriving Repr, DecidableEq

/-- Fixed world X at which the OldMan constructor initially places the sprite:
`super(scene, OldMan.SCREEN_RIGHT + OldMan.SPAWN_OFFSET, y, ...)` on line 79.
Unlike every later entry placement it does not read the camera. -/
def constructorX : Int := SCREEN_RIGHT + SPAWN_OFFSET

/-- Exit threshold test of OldMan.update (lines 446 to 459): `exitedLeft`
is `patrolDirection === -1 && this.x < camera.scrollX - 100`. -/
def exitedLeft (frame : CameraFrame) (dir : Int) (x : Int) : Bool :=
  dir == -1 && x < frame.scrollX - 100

/-- Exit threshold test of OldMan.update: `exitedRight` is
`patrolDirection === 1 && this.x > camera.scrollX + camera.width + 100`. -/
def exitedRight (frame : CameraFrame) (dir : Int) (x : Int) : Bool :=
  dir == 1 && x > frame.scrollX + frame.viewportWidth + 100

/-- Method OldMan.startEntering (lines 205 to 252): sets `currentState` to
entering, resets the per-patrol back-pain counter, and schedules the 1000 ms
enter-transit `delayedCall` (warning display is visual only).  The method has
no disposal or activity guard. -/
def startEntering (s : State) : State × List Timer :=
  ({ s with currentState := .entering, backPainThisPatrol := 0 },
   [Timer.enterTransit])

/-- Callback of the 1000 ms `delayedCall` inside OldMan.startEntering
(lines 216 to 251): repositions the sprite off screen using camera-relative
coordinates, snaps y to ground, makes it visible and active, faces and moves
it in the patrol direction, and schedules the 1500 ms patrol-start
`delayedCall`.  It performs no disposal or activity check before mutating. -/
def enterTransitCallback (frame : CameraFrame) (s : State) :
    State × List Timer :=
  ({ s with
      x := if s.patrolDirection == -1 then
             frame.scrollX + frame.viewportWidth + SPAWN_OFFSET
           else
             frame.scrollX - SPAWN_OFFSET,
      y := s.groundY,
      visible := true,
      active := true,
      flipX := s.patrolDirection == -1,
      velocityX := s.patrolDirection * PATROL_SPEED },
   [Timer.patrolStart])

/-- Method OldMan.startPatrolling (lines 257 to 274): sets `currentState` to
patrolling, starts the repeating throw timer (OldMan.startThrowingTimer,
lines 179 to 186, which only installs the interval timer and does not throw
immediately), and schedules the one-shot phase timer for the back pain. -/
def startPatrolling (s : State) : State × List Timer :=
  ({ s with currentState := .patrolling,
            throwTimerActive := true,
            phaseTimerActive := true },
   [Timer.throwRepeat THROW_INTERVAL, Timer.phase])

/-- Method OldMan.tryToThrowNewspaper (lines 469 to 478), composed with
throwNewspaper: refuses unless `currentState` is patrolling and a player
reference exists, otherwise spawns one newspaper (appended to the
`newspapers` array).  There is no per-traversal budget check of any kind.
The Bool result records whether a newspaper was spawned. -/
def tryToThrowNewspaper (playerPresent : Bool) (s : State) : State × Bool :=
  if s.currentState != .patrolling then (s, false)
  else if !playerPresent then (s, false)
  else ({ s with newspapers := s.newspapers + 1 }, true)

/-- Method OldMan.startBackPain (lines 279 to 319): refuses (returns with no
effect) when `backPainThisPatrol` has reached MAX_BACKPAIN_PER_PATROL;
otherwise enters the backpain state, increments both the lifetime and the
per-patrol counters, stops movement and the throw timer, and schedules the
squirrel `delayedCall` and the recovery `delayedCall`. -/
def startBackPain (s : State) : State × List Timer :=
  if s.backPainThisPatrol >= MAX_BACKPAIN_PER_PATROL then (s, [])
  else
    ({ s with currentState := .backpain,
              backPainCount := s.backPainCount + 1,
              backPainThisPatrol := s.backPainThisPatrol + 1,
              velocityX := 0,
              y := s.groundY,
              throwTimerActive := false },
     [Timer.squirrel, Timer.recovery])

/-- Method OldMan.recoverFromBackPain (lines 324 to 345): resumes walking in
the unchanged patrol direction and sets `currentState` back to patrolling.
It does not restart the throw timer (stopped by startBackPain) and schedules
no further phase timer; the source comments it as walking to the exit with no
more throwing. -/
def recoverFromBackPain (s : State) : State × List Timer :=
  ({ s with velocityX := s.patrolDirection * PATROL_SPEED,
            currentState := .patrolling },
   [])

/-- Callback of the SQUIRREL_DELAY `delayedCall` inside OldMan.startBackPain
(lines 303 to 307) composed with OldMan.spawnSquirrel (lines 824 to 855): if
still in the backpain state it constructs `new Squirrel(this.scene, 850, 555)`
at that fixed world position; the returned option is the spawned hazard's
world coordinates. -/
def squirrelCallback (s : State) : State × Option (Int × Int) :=
  if s.currentState == .backpain then (s, some (850, 555))
  else (s, none)

/-- Method OldMan.startWaiting (lines 372 to 391): stops and hides the sprite,
sets `currentState` to waiting and schedules the randomized re-entry
`delayedCall`. -/
def startWaiting (s : State) : State × List Timer :=
  ({ s with currentState := .waiting,
            velocityX := 0,
            y := s.groundY,
            visible := false },
   [Timer.reentry])

/-- Method OldMan.prepareReentry (lines 396 to 414): places the sprite
off screen camera-relatively on the rolled side (the roll itself is
`Math.random() < 0.8`, passed here as `enterFromRight`), sets the patrol
direction and facing accordingly, then calls startEntering. -/
def prepareReentry (frame : CameraFrame) (enterFromRight : Bool) (s : State) :
    State × List Timer :=
  if enterFromRight then
    startEntering { s with
      x := frame.scrollX + frame.viewportWidth + SPAWN_OFFSET,
      patrolDirection := -1,
      flipX := true }
  else
    startEntering { s with
      x := frame.scrollX - SPAWN_OFFSET,
      patrolDirection := 1,
      flipX := false }

/-- Method OldMan.update (lines 425 to 460): no-ops without a player or when
inactive; updates facing; in the patrolling or exiting states tests the
camera-relative exit thresholds and calls startWaiting on a crossing. -/
def update (frame : CameraFrame) (playerPresent : Bool) (playerX : Int)
    (s : State) : State × List Timer :=
  if !playerPresent || !s.active then (s, [])
  else
    let s1 :=
      if s.currentState == .patrolling || s.currentState == .entering then
        { s with flipX := s.patrolDirection == -1 }
      else if s.currentState == .backpain then
        { s with flipX := playerX < s.x }
      else s
    if (s1.currentState == .patrolling || s1.currentState == .exiting)
        && (exitedLeft frame s1.patrolDirection s1.x
            || exitedRight frame s1.patrolDirection s1.x) then
      startWaiting s1
    else (s1, [])

/-- Method OldMan.cleanup (lines 864 to 884): removes the repeating throw
timer and the phase timer, clears the newspapers, and destroys the sprite
(which deactivates it).  The one-shot `delayedCall`s for entry transit,
patrol start, squirrel, recovery and re-entry are not held in any field and
are not cancelled; the class keeps no pending-timer registry and no disposed
flag.  The second component lists the timers that cleanup cancels. -/
def cleanup (s : State) : State × List Timer :=
  ({ s with throwTimerActive := false,
            phaseTimerActive := false,
            newspapers := 0,
            active := false },
   (if s.throwTimerActive then [Timer.throwRepeat THROW_INTERVAL] else [])
     ++ (if s.phaseTimerActive then [Timer.phase] else []))

end OldMan

namespace Bully

/-- Constant THROW_INTERVAL of Bully.js (milliseconds between word bubbles). -/
def THROW_INTERVAL : Nat := 2000

/-- Constant PATROL_SPEED of Bully.js (pixels per second). -/
def PATROL_SPEED : Int := 100

/-- Constant MAX_THROWS of Bully.js: the per-patrol attack budget. -/
def MAX_THROWS : Nat := 4

/-- Constant SPAWN_OFFSET of Bully.js. -/
def SPAWN_OFFSET : Int := 100

/-- Constant SCREEN_LEFT of Bully.js (kept but unused after the camera fix). -/
def SCREEN_LEFT : Int := -80

/-- Constant SCREEN_RIGHT of Bully.js (kept but unused after the camera fix). -/
def SCREEN_RIGHT : Int := 880

/-- Patrol states of Bully.js: the string field `currentState` ranges over
these four values (the attack state is called `charging` there). -/
inductive Phase where
  | waiting
  | entering
  | charging
  | exiting
deriving Repr, DecidableEq

/-- Timers the Bully schedules, tagged by call site.  Every one-shot
`delayedCall` of Bully.js is pushed onto `this.pendingTimers` right after
being created; the repeating throw timer is held in `this.throwTimer`. -/
inductive Timer where
  | entry
  | enterTransit
  | chargeStart
  | reentry
  | throwRepeat (interval : Nat)
deriving Repr, DecidableEq

/-- Mutable instance fields of Bully.js that the claims touch.  Unlike the
OldMan, the Bully keeps a `pendingTimers` registry, an `isDestroyed` flag set
at the start of cleanup, and a `hasBody` view of `this.body` (nulled when the
sprite is destroyed); its callbacks all begin with the guard
`if (this.isDestroyed || !this.active || !this.body) return`.  `wordBubbles`
is the length of the `this.wordBubbles` array. -/
structure State where
  x : Int
  y : Int
  groundY : Int
  velocityX : Int
  visible : Bool
  active : Bool
  hasBody : Bool
  flipX : Bool
  currentState : Phase
  patrolDirection : Int
  throwCount : Nat
  wordBubbles : Nat
  pendingTimers : List Timer
  isDestroyed : Bool
  throwTimerActive : Bool
deriving Repr, DecidableEq

/-- Guard used at the head of every Bully callback:
`this.isDestroyed || !this.active || !this.body`. -/
def guardBlocked (s : State) : Bool :=
  s.isDestroyed || !s.active || !s.hasBody

/-- Spawn X chosen by the Bully constructor (part_007 lines 62 to 65):
camera-relative, fixed by the `startFromRight` construction argument. -/
def constructorX (frame : CameraFrame) (startFromRight : Bool) : Int :=
  if startFromRight then frame.scrollX + frame.viewportWidth + SPAWN_OFFSET
  else frame.scrollX - SPAWN_OFFSET

/-- Exit threshold test of Bully.update (lines 348 to 361): `exitedLeft` is
`patrolDirection === -1 && this.x < camera.scrollX - 100`. -/
def exitedLeft (frame : CameraFrame) (dir : Int) (x : Int) : Bool :=
  dir == -1 && x < frame.scrollX - 100

/-- Exit threshold test of Bully.update: `exitedRight` is
`patrolDirection === 1 && this.x > camera.scrollX + camera.width + 100`. -/
def exitedRight (frame : CameraFrame) (dir : Int) (x : Int) : Bool :=
  dir == 1 && x > frame.scrollX + frame.viewportWidth + 100

/-- Method Bully.tryToThrow (lines 371 to 389): refuses when destroyed or
detached, when not in the charging state, when the per-patrol budget
MAX_THROWS is spent, or without a player; otherwise spawns one word bubble
and increments `throwCount`.  The Bool result records whether a bubble was
spawned.  Refusal never changes the state. -/
def tryToThrow (playerPresent : Bool) (s : State) : State × Bool :=
  if s.isDestroyed || !s.active then (s, false)
  else if s.currentState != .charging then (s, false)
  else if s.throwCount >= MAX_THROWS then (s, false)
  else if !playerPresent then (s, false)
  else ({ s with wordBubbles := s.wordBubbles + 1,
                 throwCount := s.throwCount + 1 }, true)

/-- Method Bully.startEntering (lines 194 to 244): guarded by the disposal
check; sets `currentState` to entering, resets `throwCount` to 0, and
schedules the 800 ms enter-transit `delayedCall`, pushing it onto
`pendingTimers`. -/
def startEntering (s : State) : State × List Timer :=
  if guardBlocked s then (s, [])
  else
    ({ s with currentState := .entering,
              throwCount := 0,
              pendingTimers := s.pendingTimers ++ [Timer.enterTransit] },
     [Timer.enterTransit])

/-- Callback of the 800 ms `delayedCall` inside Bully.startEntering
(lines 209 to 242): re-checks the disposal guard and returns untouched when
it fails; otherwise repositions the sprite off screen camera-relatively on
the side given by the patrol direction, snaps y to ground, shows and moves
it, and schedules the 1000 ms charge-start `delayedCall`, pushing it onto
`pendingTimers`. -/
def enterTransitCallback (frame : CameraFrame) (s : State) :
    State × List Timer :=
  if guardBlocked s then (s, [])
  else
    ({ s with
        x := if s.patrolDirection == -1 then
               frame.scrollX + frame.viewportWidth + SPAWN_OFFSET
             else
               frame.scrollX - SPAWN_OFFSET,
        y := s.groundY,
        visible := true,
        active := true,
        flipX := s.patrolDirection == -1,
        velocityX := s.patrolDirection * PATROL_SPEED,
        pendingTimers := s.pendingTimers ++ [Timer.chargeStart] },
     [Timer.chargeStart])

/-- Method Bully.startCharging (lines 249 to 255) composed with
Bully.startThrowingTimer (lines 165 to 175): enters the charging state, makes
the immediate `tryToThrow` call, and installs the repeating throw timer.  The
third component records whether the immediate throw spawned a bubble. -/
def startCharging (playerPresent : Bool) (s : State) :
    State × List Timer × Bool :=
  let s1 := { s with currentState := .charging }
  let r := tryToThrow playerPresent s1
  ({ r.1 with throwTimerActive := true },
   [Timer.throwRepeat THROW_INTERVAL], r.2)

/-- Callback of the 1000 ms charge-start `delayedCall` (lines 237 to 240):
re-checks the disposal guard, then calls startCharging. -/
def chargeStartCallback (playerPresent : Bool) (s : State) :
    State × List Timer × Bool :=
  if guardBlocked s then (s, [], false)
  else startCharging playerPresent s

/-- Method Bully.startWaiting (lines 276 to 302): guarded by the disposal
check; stops and hides the sprite, sets `currentState` to waiting, and
schedules the randomized re-entry `delayedCall`, pushing it onto
`pendingTimers`. -/
def startWaiting (s : State) : State × List Timer :=
  if guardBlocked s then (s, [])
  else
    ({ s with currentState := .waiting,
              velocityX := 0,
              y := s.groundY,
              visible := false,
              pendingTimers := s.pendingTimers ++ [Timer.reentry] },
     [Timer.reentry])

/-- Method Bully.prepareReentry (lines 307 to 326): guarded by the disposal
check; re-rolls the entry side (`Math.random() < 0.5`, passed here as
`enterFromRight`), repositions camera-relatively, resets the patrol
direction and facing, and calls startEntering. -/
def prepareReentry (frame : CameraFrame) (enterFromRight : Bool) (s : State) :
    State × List Timer :=
  if guardBlocked s then (s, [])
  else if enterFromRight then
    startEntering { s with
      x := frame.scrollX + frame.viewportWidth + SPAWN_OFFSET,
      patrolDirection := -1,
      flipX := true }
  else
    startEntering { s with
      x := frame.scrollX - SPAWN_OFFSET,
      patrolDirection := 1,
      flipX := false }

/-- Method Bully.update (lines 337 to 362): no-ops without a player or when
inactive; updates facing; in the charging or exiting states tests the
camera-relative exit thresholds and calls startWaiting on a crossing. -/
def update (frame : CameraFrame) (playerPresent : Bool) (s : State) :
    State × List Timer :=
  if !playerPresent || !s.active then (s, [])
  else
    let s1 :=
      if s.currentState == .charging || s.currentState == .entering then
        { s with flipX := s.patrolDirection == -1 }
      else s
    if (s1.currentState == .charging || s1.currentState == .exiting)
        && (exitedLeft frame s1.patrolDirection s1.x
            || exitedRight frame s1.patrolDirection s1.x) then
      startWaiting s1
    else (s1, [])

/-- Method Bully.cleanup (lines 621 to 650): sets `isDestroyed` first, then
removes every handle in `pendingTimers` and empties the registry, removes the
repeating throw timer, clears the word bubbles, and destroys the sprite
(which deactivates it and nulls its body).  The second component lists the
timers that cleanup cancels: all recorded pending one-shot timers plus the
throw timer when present. -/
def cleanup (s : State) : State × List Timer :=
  ({ s with isDestroyed := true,
            pendingTimers := [],
            throwTimerActive := false,
            wordBubbles := 0,
            active := false,
            hasBody := false },
   s.pendingTimers
     ++ (if s.throwTimerActive then [Timer.throwRepeat THROW_INTERVAL]
         else []))

end Bully

namespace OldMan

/-- Repeated firing of the OldMan throw timer: each list entry is the player
presence at that fire, and each fire invokes tryToThrowNewspaper. -/
def throwRun : State → List Bool → State
  | s, [] => s
  | s, p :: ps => throwRun (tryToThrowNewspaper p s).1 ps

/-- Number of newspapers spawned over a sequence of throw-timer fires. -/
def throwsSpawned : State → List Bool → Nat
  | _, [] => 0
  | s, p :: ps =>
    (if (tryToThrowNewspaper p s).2 then 1 else 0)
      + throwsSpawned (tryToThrowNewspaper p s).1 ps

/-- Timer events that drive the back-pain phase logic within one traversal:
a phase-timer fire invokes startBackPain, a recovery-timer fire invokes
recoverFromBackPain. -/
inductive PhaseEvent where
  | phaseFire
  | recoveryFire
deriving Repr, DecidableEq

/-- State transition of one phase-system timer event. -/
def phaseStep (s : State) : PhaseEvent → State
  | .phaseFire => (startBackPain s).1
  | .recoveryFire => (recoverFromBackPain s).1

/-- Run of a sequence of phase-system timer events. -/
def phaseRun : State → List PhaseEvent → State
  | s, [] => s
  | s, e :: es => phaseRun (phaseStep s e) es

/-- Number of times the back-pain branch is actually entered (the guard of
startBackPain passes) over a sequence of phase-system timer events. -/
def stallEntries : State → List PhaseEvent → Nat
  | _, [] => 0
  | s, .phaseFire :: es =>
    (if s.backPainThisPatrol < MAX_BACKPAIN_PER_PATROL then 1 else 0)
      + stallEntries (phaseStep s .phaseFire) es
  | s, .recoveryFire :: es => stallEntries (phaseStep s .recoveryFire) es

end OldMan

namespace Bully

/-- Repeated firing of the Bully throw timer: each list entry is the player
presence at that fire, and each fire invokes tryToThrow. -/
def throwRun : State → List Bool → State
  | s, [] => s
  | s, p :: ps => throwRun (tryToThrow p s).1 ps

/-- Number of word bubbles spawned over a sequence of throw-timer fires. -/
def throwsSpawned : State → List Bool → Nat
  | _, [] => 0
  | s, p :: ps =>
    (if (tryToThrow p s).2 then 1 else 0)
      + throwsSpawned (tryToThrow p s).1 ps

end Bully

/-- Visible horizontal region of a camera frame: world x is on screen when it
lies between the scroll position and the scroll position plus the viewport
width. -/
def inViewport (frame : CameraFrame) (x : Int) : Bool :=
  frame.scrollX <= x && x <= frame.scrollX + frame.viewportWidth

/-- Concrete OldMan state mid-Entering, as it is right after startEntering ran
and before its enter-transit timer fired: used to exercise disposal followed
by the stale enter-transit callback. -/
def omEnterMid : OldMan.State :=
  { x := 980, y := 555, groundY := 555, velocityX := 0, visible := true,
    active := true, flipX := true, currentState := .entering,
    patrolDirection := -1, backPainCount := 0, backPainThisPatrol := 0,
    newspapers := 0, throwTimerActive := false, phaseTimerActive := false }

/-- Concrete OldMan state at the start of the attack phase of a traversal:
patrolling leftward, throw and phase timers installed, nothing thrown yet. -/
def omPatrolStart : OldMan.State :=
  { x := 900, y := 555, groundY := 555, velocityX := -60, visible := true,
    active := true, flipX := true, currentState := .patrolling,
    patrolDirection := -1, backPainCount := 0, backPainThisPatrol := 0,
    newspapers := 0, throwTimerActive := true, phaseTimerActive := true }

/-- Concrete OldMan state mid-Entering with the transit timer about to fire,
at the moment startPatrolling is invoked. -/
def omEnterDone : OldMan.State :=
  { x := 900, y := 555, groundY := 555, velocityX := -60, visible := true,
    active := true, flipX := true, currentState := .entering,
    patrolDirection := -1, backPainCount := 0, backPainThisPatrol := 0,
    newspapers := 0, throwTimerActive := false, phaseTimerActive := false }

/-- Concrete Bully state mid-charge: moving left, already past the left exit
threshold of the frame with zero scroll, two bubbles thrown. -/
def bullyChargeMid : Bully.State :=
  { x := -250, y := 555, groundY := 555, velocityX := -100, visible := true,
    active := true, hasBody := true, flipX := true, currentState := .charging,
    patrolDirection := -1, throwCount := 2, wordBubbles := 2,
    pendingTimers := [], isDestroyed := false, throwTimerActive := true }

/-- Concrete Bully state at the moment the charge-start timer fires: entering
leftward, fresh traversal, nothing thrown yet. -/
def bullyEnterDone : Bully.State :=
  { x := 900, y := 555, groundY := 555, velocityX := -100, visible := true,
    active := true, hasBody := true, flipX := true, currentState := .entering,
    patrolDirection := -1, throwCount := 0, wordBubbles := 0,
    pendingTimers := [], isDestroyed := false, throwTimerActive := false }

/-- Concrete OldMan state patrolling leftward past the left exit threshold
of an unscrolled 800 wide frame. -/
def omPatrolFar : OldMan.State :=
  { x := -250, y := 555, groundY := 555, velocityX := -60, visible := true,
    active := true, flipX := true, currentState := .patrolling,
    patrolDirection := -1, backPainCount := 0, backPainThisPatrol := 0,
    newspapers := 1, throwTimerActive := true, phaseTimerActive := true }

/-- Concrete Bully state waiting off screen between traversals. -/
def bullyWaiting : Bully.State :=
  { x := -180, y := 555, groundY := 555, velocityX := 0, visible := false,
    active := true, hasBody := true, flipX := true, currentState := .waiting,
    patrolDirection := -1, throwCount := 4, wordBubbles := 0,
    pendingTimers := [Bully.Timer.reentry], isDestroyed := false,
    throwTimerActive := false }

/-- Concrete Bully state mid-charge with the per-patrol budget spent. -/
def bullyBudgetSpent : Bully.State :=
  { x := 300, y := 555, groundY := 555, velocityX := -100, visible := true,
    active := true, hasBody := true, flipX := true, currentState := .charging,
    patrolDirection := -1, throwCount := 4, wordBubbles := 4,
    pendingTimers := [], isDestroyed := false, throwTimerActive := true }

/-- Concrete Bully state mid-Entering with the entry and enter-transit timers
recorded as pending, as after the constructor and startEntering both ran. -/
def bullyMidEnter : Bully.State :=
  { x := 900, y := 555, groundY := 555, velocityX := 0, visible := true,
    active := true, hasBody := true, flipX := true, currentState := .entering,
    patrolDirection := -1, throwCount := 0, wordBubbles := 0,
    pendingTimers := [Bully.Timer.entry, Bully.Timer.enterTransit],
    isDestroyed := false, throwTimerActive := false }

/-- Case analysis of Bully.tryToThrow: either it refuses and returns the
state untouched, or the budget had room and one bubble is spawned. -/
theorem bully_tryToThrow_cases (p : Bool) (s : Bully.State) :
    Bully.tryToThrow p s = (s, false)
    ∨ (s.throwCount < Bully.MAX_THROWS
        ∧ Bully.tryToThrow p s
            = ({ s with wordBubbles := s.wordBubbles + 1,
                        throwCount := s.throwCount + 1 }, true)) := by
  unfold Bully.tryToThrow
  split_ifs with h1 h2 h3 h4
  · exact Or.inl rfl
  · exact Or.inl rfl
  · exact Or.inl rfl
  · exact Or.inl rfl
  · exact Or.inr ⟨by omega, rfl⟩

/-- Bully.tryToThrow refuses whenever the per-patrol budget is spent. -/
theorem bully_tryToThrow_refused_when_spent (p : Bool) (s : Bully.State)
    (h : Bully.MAX_THROWS <= s.throwCount) :
    Bully.tryToThrow p s = (s, false) := by
  unfold Bully.tryToThrow
  split_ifs <;> rfl

/-- Invariant behind the attack budget: over any sequence of throw fires the
throw counter plus the bubbles spawned never passes the larger of the
starting counter and MAX_THROWS. -/
theorem bully_count_plus_spawned_le (ps : List Bool) :
    ∀ s : Bully.State,
      s.throwCount + Bully.throwsSpawned s ps
        <= max s.throwCount Bully.MAX_THROWS := by
  induction ps with
  | nil =>
    intro s
    simp only [Bully.throwsSpawned, Nat.add_zero]
    exact le_max_left _ _
  | cons p ps ih =>
    intro s
    simp only [Bully.throwsSpawned]
    rcases bully_tryToThrow_cases p s with h | ⟨hlt, h⟩
    · rw [h]
      simpa using ih s
    · rw [h]
      have hih := ih { s with wordBubbles := s.wordBubbles + 1,
                              throwCount := s.throwCount + 1 }
      simp at hih ⊢
      omega

/-- Number of bubbles a Bully spawns over any fire sequence is at most the
configured per-patrol budget MAX_THROWS, from any starting state. -/
theorem bully_throwsSpawned_le (s : Bully.State) (ps : List Bool) :
    Bully.throwsSpawned s ps <= Bully.MAX_THROWS := by
  have h := bully_count_plus_spawned_le ps s
  rcases le_total s.throwCount Bully.MAX_THROWS with hle | hle
  · rw [max_eq_right hle] at h
    omega
  · rw [max_eq_left hle] at h
    omega

/-- Once the per-patrol back-pain budget is spent, no phase-system event can
enter the stall branch again within that traversal. -/
theorem oldman_stallEntries_zero_when_spent (es : List OldMan.PhaseEvent) :
    ∀ s : OldMan.State,
      OldMan.MAX_BACKPAIN_PER_PATROL <= s.backPainThisPatrol →
      OldMan.stallEntries s es = 0 := by
  induction es with
  | nil => intro s _; rfl
  | cons e es ih =>
    intro s hs
    cases e with
    | phaseFire =>
      have hguard : ¬ s.backPainThisPatrol < OldMan.MAX_BACKPAIN_PER_PATROL := by
        omega
      have hstep : OldMan.phaseStep s .phaseFire = s := by
        simp [OldMan.phaseStep, OldMan.startBackPain, if_pos hs]
      simp only [OldMan.stallEntries, if_neg hguard, hstep, Nat.zero_add]
      exact ih s hs
    | recoveryFire =>
      simp only [OldMan.stallEntries]
      apply ih
      simpa [OldMan.phaseStep, OldMan.recoverFromBackPain] using hs

/-- The stall branch of the slow archetype is entered at most
MAX_BACKPAIN_PER_PATROL times over any sequence of phase-system events. -/
theorem oldman_stallEntries_le (es : List OldMan.PhaseEvent) :
    ∀ s : OldMan.State,
      OldMan.stallEntries s es <= OldMan.MAX_BACKPAIN_PER_PATROL := by
  induction es with
  | nil =>
    intro s
    simp [OldMan.stallEntries, OldMan.MAX_BACKPAIN_PER_PATROL]
  | cons e es ih =>
    intro s
    cases e with
    | phaseFire =>
      by_cases hg : s.backPainThisPatrol < OldMan.MAX_BACKPAIN_PER_PATROL
      · have hns : ¬ OldMan.MAX_BACKPAIN_PER_PATROL <= s.backPainThisPatrol := by
          omega
        have hspent :
            OldMan.MAX_BACKPAIN_PER_PATROL
              <= (OldMan.phaseStep s .phaseFire).backPainThisPatrol := by
          have hM : OldMan.MAX_BACKPAIN_PER_PATROL = 1 := rfl
          simp only [OldMan.phaseStep, OldMan.startBackPain, if_neg hns]
          omega
        have hrest := oldman_stallEntries_zero_when_spent es _ hspent
        have hM : OldMan.MAX_BACKPAIN_PER_PATROL = 1 := rfl
        simp only [OldMan.stallEntries, if_pos hg, hrest]
        omega
      · simp only [OldMan.stallEntries, if_neg hg, Nat.zero_add]
        exact ih _
    | recoveryFire =>
      simp only [OldMan.stallEntries]
      exact ih _

/-- Concrete OldMan state in the back-pain stall, one back pain suffered. -/
def omBackpain : OldMan.State :=
  { x := 400, y := 555, groundY := 555, velocityX := 0, visible := true,
    active := true, flipX := false, currentState := .backpain,
    patrolDirection := -1, backPainCount := 1, backPainThisPatrol := 1,
    newspapers := 2, throwTimerActive := false, phaseTimerActive := false }

/-- C1 (amended).  Every entry and re-entry repositioning of either archetype
computes its spawn X camera-relatively, agreeing with the spec helper
specSpawnX: the Bully constructor, the enter-transit callbacks of both
classes, and the prepareReentry methods of both classes all place the sprite
at scrollX + viewportWidth + 100 when entering from the Right and at
scrollX - 100 when entering from the Left.  (The OldMan constructor alone
parks the sprite at a fixed world coordinate before its first entry; see the
counterexample theorem.) -/
theorem spawn_repositionings_camera_relative :
    ∀ (frame : CameraFrame),
      (∀ r : Bool, Bully.constructorX frame r
          = specSpawnX frame (if r then .Right else .Left))
      ∧ (∀ s : OldMan.State,
          ((OldMan.enterTransitCallback frame s).1).x
            = specSpawnX frame
                (if s.patrolDirection == -1 then .Right else .Left))
      ∧ (∀ (s : OldMan.State) (r : Bool),
          ((OldMan.prepareReentry frame r s).1).x
            = specSpawnX frame (if r then .Right else .Left))
      ∧ (∀ s : Bully.State, Bully.guardBlocked s = false →
          ((Bully.enterTransitCallback frame s).1).x
            = specSpawnX frame
                (if s.patrolDirection == -1 then .Right else .Left))
      ∧ (∀ (s : Bully.State) (r : Bool), Bully.guardBlocked s = false →
          ((Bully.prepareReentry frame r s).1).x
            = specSpawnX frame (if r then .Right else .Left)) := by
  intro frame
  refine ⟨?_, ?_, ?_, ?_, ?_⟩
  · intro r
    cases r <;> rfl
  · intro s
    rcases Bool.eq_false_or_eq_true (s.patrolDirection == -1) with h | h <;>
      simp [OldMan.enterTransitCallback, specSpawnX, h, OldMan.SPAWN_OFFSET]
  · intro s r
    cases r <;>
      simp [OldMan.prepareReentry, OldMan.startEntering, specSpawnX,
        OldMan.SPAWN_OFFSET]
  · intro s hg
    rcases Bool.eq_false_or_eq_true (s.patrolDirection == -1) with h | h <;>
      simp [Bully.enterTransitCallback, specSpawnX, h, hg, Bully.SPAWN_OFFSET]
  · intro s r hg
    cases r <;>
      simp [Bully.prepareReentry, Bully.startEntering, Bully.guardBlocked,
        specSpawnX, Bully.SPAWN_OFFSET, hg] <;>
      simp [Bully.guardBlocked] at hg <;>
      simp [hg]

/-- Witness for C1: concrete Bully mid-entry at a scrolled camera frame; the
positioning requires the disposal guard to be clear, and the resulting x is
the camera-relative right-side spawn 50 + 800 + 100. -/
theorem spawn_repositionings_camera_relative_witness :
    Bully.guardBlocked bullyEnterDone = false
    ∧ ((Bully.enterTransitCallback ⟨50, 800⟩ bullyEnterDone).1).x = 950 := by
  refine ⟨by decide, ?_⟩
  rw [(spawn_repositionings_camera_relative ⟨50, 800⟩).2.2.2.1 bullyEnterDone
    (by decide)]
  decide

/-- Counterexample to C1 as stated: the OldMan constructor places the sprite
at the fixed world coordinate SCREEN_RIGHT + SPAWN_OFFSET = 980 (OldMan.js
line 79) regardless of the camera, which differs from the camera-relative
right-side spawn once the camera has scrolled (here scrollX = 100,
viewportWidth = 800 gives 1000). -/
theorem oldman_constructor_fixed_world_spawn :
    OldMan.constructorX = 980
    ∧ specSpawnX ⟨100, 800⟩ Side.Right = 1000
    ∧ OldMan.constructorX ≠ specSpawnX ⟨100, 800⟩ Side.Right := by
  refine ⟨rfl, rfl, by decide⟩

/-- C2.  Exit detection of both archetypes uses exactly the camera-relative
thresholds scrollX - 100 (left) and scrollX + viewportWidth + 100 (right),
and is invariant under translating the camera scroll and the entity position
by any common offset: it depends only on x - scrollX. -/
theorem exit_detection_camera_relative :
    ∀ (frame : CameraFrame) (dir x d : Int),
      (OldMan.exitedLeft frame dir x
          = (dir == -1 && decide (x < frame.scrollX - 100)))
      ∧ (OldMan.exitedRight frame dir x
          = (dir == 1 && decide (x > frame.scrollX + frame.viewportWidth + 100)))
      ∧ (OldMan.exitedLeft ⟨frame.scrollX + d, frame.viewportWidth⟩ dir (x + d)
          = OldMan.exitedLeft frame dir x)
      ∧ (OldMan.exitedRight ⟨frame.scrollX + d, frame.viewportWidth⟩ dir (x + d)
          = OldMan.exitedRight frame dir x)
      ∧ (Bully.exitedLeft ⟨frame.scrollX + d, frame.viewportWidth⟩ dir (x + d)
          = Bully.exitedLeft frame dir x)
      ∧ (Bully.exitedRight ⟨frame.scrollX + d, frame.viewportWidth⟩ dir (x + d)
          = Bully.exitedRight frame dir x) := by
  intro frame dir x d
  refine ⟨rfl, rfl, ?_, ?_, ?_, ?_⟩
  · simp only [OldMan.exitedLeft]
    congr 1
    rw [decide_eq_decide]
    omega
  · simp only [OldMan.exitedRight]
    congr 1
    rw [decide_eq_decide]
    omega
  · simp only [Bully.exitedLeft]
    congr 1
    rw [decide_eq_decide]
    omega
  · simp only [Bully.exitedRight]
    congr 1
    rw [decide_eq_decide]
    omega

/-- Helper for C6: the OldMan per-frame update leaves `currentState`
untouched unless one of the exit booleans fired for its own direction and
position. -/
theorem oldman_update_state_eq_or_exit (frame : CameraFrame) (pp : Bool)
    (px : Int) (s : OldMan.State) :
    ((OldMan.update frame pp px s).1).currentState = s.currentState
    ∨ (OldMan.exitedLeft frame s.patrolDirection s.x
        || OldMan.exitedRight frame s.patrolDirection s.x) = true := by
  rcases Bool.eq_false_or_eq_true
      (OldMan.exitedLeft frame s.patrolDirection s.x
        || OldMan.exitedRight frame s.patrolDirection s.x) with hex | hex
  · exact Or.inr hex
  · left
    unfold OldMan.update
    rcases Bool.eq_false_or_eq_true (!pp || !s.active) with h1 | h1 <;>
    rcases Bool.eq_false_or_eq_true (s.currentState == .patrolling
        || s.currentState == .entering) with hA | hA <;>
    rcases Bool.eq_false_or_eq_true (s.currentState == .backpain)
        with hB | hB <;>
    simp [h1, hA, hB, hex]

/-- Helper for C6: the Bully per-frame update leaves `currentState` untouched
unless one of the exit booleans fired for its own direction and position. -/
theorem bully_update_state_eq_or_exit (frame : CameraFrame) (pp : Bool)
    (s : Bully.State) :
    ((Bully.update frame pp s).1).currentState = s.currentState
    ∨ (Bully.exitedLeft frame s.patrolDirection s.x
        || Bully.exitedRight frame s.patrolDirection s.x) = true := by
  rcases Bool.eq_false_or_eq_true
      (Bully.exitedLeft frame s.patrolDirection s.x
        || Bully.exitedRight frame s.patrolDirection s.x) with hex | hex
  · exact Or.inr hex
  · left
    unfold Bully.update
    rcases Bool.eq_false_or_eq_true (!pp || !s.active) with h1 | h1 <;>
    rcases Bool.eq_false_or_eq_true (s.currentState == .charging
        || s.currentState == .entering) with hA | hA <;>
    simp [h1, hA, hex]

/-- C6.  Exit registers only in the direction matching patrolDirection: a
leftward mover (patrolDirection -1) never trips the right threshold and a
rightward mover (patrolDirection 1) never trips the left one, in both
archetypes; and at the level of the per-frame update, the traversal state can
change only when the exit boolean for the entity's own direction fired. -/
theorem exit_requires_matching_direction :
    ∀ (frame : CameraFrame) (x : Int),
      OldMan.exitedLeft frame 1 x = false
      ∧ OldMan.exitedRight frame (-1) x = false
      ∧ Bully.exitedLeft frame 1 x = false
      ∧ Bully.exitedRight frame (-1) x = false
      ∧ (∀ (s : OldMan.State) (pp : Bool) (px : Int),
          ((OldMan.update frame pp px s).1).currentState = s.currentState
          ∨ (OldMan.exitedLeft frame s.patrolDirection s.x
              || OldMan.exitedRight frame s.patrolDirection s.x) = true)
      ∧ (∀ (s : Bully.State) (pp : Bool),
          ((Bully.update frame pp s).1).currentState = s.currentState
          ∨ (Bully.exitedLeft frame s.patrolDirection s.x
              || Bully.exitedRight frame s.patrolDirection s.x) = true) := by
  intro frame x
  refine ⟨by simp [OldMan.exitedLeft], by simp [OldMan.exitedRight],
    by simp [Bully.exitedLeft], by simp [Bully.exitedRight], ?_, ?_⟩
  · intro s pp px
    exact oldman_update_state_eq_or_exit frame pp px s
  · intro s pp
    exact bully_update_state_eq_or_exit frame pp s

/-- C10.  The side hazard of the slow archetype's phase stall is always
created at the fixed world position (850, 555), whatever the camera frame:
the squirrel-delay callback either spawns at exactly that point or (when the
stall was already left) spawns nothing, and whenever the viewport does not
contain world x = 850 that point is outside the visible region. -/
theorem squirrel_spawn_fixed_world_position :
    ∀ (s : OldMan.State) (frame : CameraFrame) (q : Int × Int),
      ((OldMan.squirrelCallback s).2 = some q → q = (850, 555))
      ∧ (s.currentState = .backpain →
          (OldMan.squirrelCallback s).2 = some (850, 555))
      ∧ ((frame.scrollX + frame.viewportWidth < 850 ∨ 850 < frame.scrollX) →
          inViewport frame 850 = false) := by
  intro s frame q
  refine ⟨?_, ?_, ?_⟩
  · unfold OldMan.squirrelCallback
    split_ifs with h
    · intro hq
      exact (Option.some.injEq _ _ ▸ hq).symm
    · intro hq
      exact absurd hq (by simp)
  · intro h
    simp [OldMan.squirrelCallback, h]
  · intro h
    simp only [inViewport]
    rcases h with h | h <;>
    · simp only [Bool.and_eq_false_iff, decide_eq_false_iff_not, not_le]
      omega

/-- Witness for C10: a concrete back-pain state spawns the squirrel at
(850, 555), and at a camera scrolled to 900 with an 800 wide viewport the
point 850 is off screen. -/
theorem squirrel_spawn_fixed_world_position_witness :
    (OldMan.squirrelCallback omBackpain).2 = some (850, 555)
    ∧ inViewport ⟨900, 800⟩ 850 = false := by
  refine ⟨?_, ?_⟩
  · exact (squirrel_spawn_fixed_world_position omBackpain ⟨900, 800⟩
      (850, 555)).2.1 rfl
  · exact (squirrel_spawn_fixed_world_position omBackpain ⟨900, 800⟩
      (850, 555)).2.2 (Or.inr (by decide))

/-- C3 (amended).  For the fast archetype the claim holds: Bully.cleanup sets
the disposed flag, empties the pending-timer registry and cancels every
recorded pending timer plus the repeating throw timer; every scheduling
operation records its one-shot timers in the registry as it emits them; and
once disposed, every timer callback (the enter-transit and charge-start
callbacks, startEntering, startWaiting, prepareReentry, tryToThrow) returns
the state untouched and schedules nothing.  The slow archetype violates the
claim; see the counterexample theorem. -/
theorem bully_disposal_records_cancels_and_stale_noop :
    ∀ (s : Bully.State) (frame : CameraFrame) (p r : Bool),
      ((Bully.cleanup s).1.isDestroyed = true
        ∧ (Bully.cleanup s).1.pendingTimers = []
        ∧ (Bully.cleanup s).1.throwTimerActive = false
        ∧ (Bully.cleanup s).2
            = s.pendingTimers
              ++ (if s.throwTimerActive then
                    [Bully.Timer.throwRepeat Bully.THROW_INTERVAL] else []))
      ∧ ((Bully.startEntering s).1.pendingTimers
            = s.pendingTimers ++ (Bully.startEntering s).2
         ∧ (Bully.enterTransitCallback frame s).1.pendingTimers
            = s.pendingTimers ++ (Bully.enterTransitCallback frame s).2
         ∧ (Bully.startWaiting s).1.pendingTimers
            = s.pendingTimers ++ (Bully.startWaiting s).2)
      ∧ (s.isDestroyed = true →
          (Bully.enterTransitCallback frame s = (s, [])
           ∧ Bully.chargeStartCallback p s = (s, [], false)
           ∧ Bully.startEntering s = (s, [])
           ∧ Bully.startWaiting s = (s, [])
           ∧ Bully.prepareReentry frame r s = (s, [])
           ∧ Bully.tryToThrow p s = (s, false))) := by
  intro s frame p r
  refine ⟨⟨rfl, rfl, rfl, rfl⟩, ⟨?_, ?_, ?_⟩, ?_⟩
  · rcases Bool.eq_false_or_eq_true (Bully.guardBlocked s) with hg | hg <;>
      simp [Bully.startEntering, hg]
  · rcases Bool.eq_false_or_eq_true (Bully.guardBlocked s) with hg | hg <;>
      simp [Bully.enterTransitCallback, hg]
  · rcases Bool.eq_false_or_eq_true (Bully.guardBlocked s) with hg | hg <;>
      simp [Bully.startWaiting, hg]
  · intro hd
    have hg : Bully.guardBlocked s = true := by
      simp [Bully.guardBlocked, hd]
    refine ⟨?_, ?_, ?_, ?_, ?_, ?_⟩
    · simp [Bully.enterTransitCallback, hg]
    · simp [Bully.chargeStartCallback, hg]
    · simp [Bully.startEntering, hg]
    · simp [Bully.startWaiting, hg]
    · simp [Bully.prepareReentry, hg]
    · simp [Bully.tryToThrow, hd]

/-- Witness for C3: disposing a concrete mid-Entering Bully cancels exactly
its two recorded pending timers, and the stale enter-transit callback invoked
on the disposed state is a strict no-op. -/
theorem bully_disposal_witness :
    (Bully.cleanup bullyMidEnter).2
        = [Bully.Timer.entry, Bully.Timer.enterTransit]
    ∧ Bully.enterTransitCallback ⟨0, 800⟩ (Bully.cleanup bullyMidEnter).1
        = ((Bully.cleanup bullyMidEnter).1, []) := by
  constructor
  · have h := (bully_disposal_records_cancels_and_stale_noop bullyMidEnter
      ⟨0, 800⟩ true true).1.2.2.2
    simpa using h
  · exact ((bully_disposal_records_cancels_and_stale_noop
      ((Bully.cleanup bullyMidEnter).1) ⟨0, 800⟩ true true).2.2 (by decide)).1

/-- Counterexample to C3 as stated: the slow archetype's disposal does not
cancel the pending enter-transit delayedCall (OldMan.cleanup removes only the
throw and phase timers), and the enter-transit callback invoked stale after
disposal mutates state — it moves the sprite from 980 to the camera-relative
900 and even reactivates the destroyed sprite — and schedules the
patrol-start timer. -/
theorem oldman_stale_enter_callback_mutates :
    OldMan.Timer.enterTransit ∉ (OldMan.cleanup omEnterMid).2
    ∧ (OldMan.cleanup omEnterMid).1.active = false
    ∧ ((OldMan.enterTransitCallback ⟨0, 800⟩
          (OldMan.cleanup omEnterMid).1).1).active = true
    ∧ ((OldMan.enterTransitCallback ⟨0, 800⟩
          (OldMan.cleanup omEnterMid).1).1).x = 900
    ∧ (OldMan.cleanup omEnterMid).1.x = 980
    ∧ (OldMan.enterTransitCallback ⟨0, 800⟩ (OldMan.cleanup omEnterMid).1).2
        = [OldMan.Timer.patrolStart] := by
  decide

/-- C4 (amended).  The fast archetype enforces its per-patrol attack budget:
over any sequence of throw-timer fires at most MAX_THROWS word bubbles are
spawned, issuance is refused once the counter reaches MAX_THROWS, and the
counter is reset to zero on every startEntering (the Waiting to Entering
transition).  The slow archetype configures no budget at all: see the
counterexample theorem. -/
theorem bully_attack_budget_enforced :
    ∀ (s : Bully.State) (ps : List Bool) (p : Bool),
      Bully.throwsSpawned s ps <= Bully.MAX_THROWS
      ∧ (Bully.MAX_THROWS <= s.throwCount → Bully.tryToThrow p s = (s, false))
      ∧ (Bully.guardBlocked s = false →
          ((Bully.startEntering s).1).throwCount = 0) := by
  intro s ps p
  refine ⟨bully_throwsSpawned_le s ps,
    fun h => bully_tryToThrow_refused_when_spent p s h, fun hg => ?_⟩
  simp [Bully.startEntering, hg]

/-- Witness for C4 on concrete states: ten fires from a fresh charge spawn at
most four bubbles, a spent Bully refuses, and re-entry resets the counter. -/
theorem bully_attack_budget_enforced_witness :
    Bully.throwsSpawned bullyEnterDone (List.replicate 10 true)
        <= Bully.MAX_THROWS
    ∧ Bully.tryToThrow true bullyBudgetSpent = (bullyBudgetSpent, false)
    ∧ ((Bully.startEntering bullyWaiting).1).throwCount = 0 := by
  refine ⟨(bully_attack_budget_enforced bullyEnterDone
      (List.replicate 10 true) true).1, ?_, ?_⟩
  · exact (bully_attack_budget_enforced bullyBudgetSpent [] true).2.1
      (by decide)
  · exact (bully_attack_budget_enforced bullyWaiting [] true).2.2 (by decide)

/-- Counterexample to C4 as stated: the slow archetype has no per-traversal
attack budget.  Six consecutive throw-timer fires while patrolling spawn six
newspapers — more than even the faster archetype's configured maximum of
four — and the next fire still succeeds instead of being refused. -/
theorem oldman_attack_budget_absent :
    OldMan.throwsSpawned omPatrolStart (List.replicate 6 true) = 6
    ∧ Bully.MAX_THROWS < 6
    ∧ (OldMan.tryToThrowNewspaper true
        (OldMan.throwRun omPatrolStart (List.replicate 6 true))).2 = true := by
  decide

/-- C5.  The phase-stall branch of the slow archetype is entered at most once
per traversal: over any sequence of phase and recovery timer fires, from any
state, the stall branch passes its guard at most MAX_BACKPAIN_PER_PATROL = 1
times, and startEntering resets the per-patrol stall counter to zero on every
entry. -/
theorem oldman_backpain_once_per_traversal :
    ∀ (s : OldMan.State) (es : List OldMan.PhaseEvent),
      OldMan.stallEntries s es <= OldMan.MAX_BACKPAIN_PER_PATROL
      ∧ ((OldMan.startEntering s).1).backPainThisPatrol = 0 := by
  intro s es
  exact ⟨oldman_stallEntries_le es s, rfl⟩

/-- C7 (amended).  From the attacking state, crossing the camera-relative
exit threshold transitions the entity directly to waiting — it never passes
through the exiting state, whose handler is never invoked — zeroing velocity,
hiding the sprite and scheduling the re-entry timer; when the re-entry timer
fires, prepareReentry re-rolls the side, repositions camera-relatively, and
resets direction and throw counter; exhausting the attack budget causes no
state transition at all, only refusal of further throws. -/
theorem attacking_exit_transitions_to_waiting :
    ∀ (frame : CameraFrame) (s : Bully.State) (r p : Bool),
      (Bully.guardBlocked s = false → s.currentState = .charging →
        (Bully.exitedLeft frame s.patrolDirection s.x
          || Bully.exitedRight frame s.patrolDirection s.x) = true →
        ((Bully.update frame true s).1.currentState = Bully.Phase.waiting
         ∧ (Bully.update frame true s).1.velocityX = 0
         ∧ (Bully.update frame true s).1.visible = false
         ∧ (Bully.update frame true s).2 = [Bully.Timer.reentry]))
      ∧ (Bully.guardBlocked s = false →
          (((Bully.prepareReentry frame r s).1).patrolDirection
              = (if r then -1 else 1)
           ∧ ((Bully.prepareReentry frame r s).1).x
              = specSpawnX frame (if r then .Right else .Left)
           ∧ ((Bully.prepareReentry frame r s).1).currentState
              = Bully.Phase.entering
           ∧ ((Bully.prepareReentry frame r s).1).throwCount = 0))
      ∧ (Bully.MAX_THROWS <= s.throwCount →
          Bully.tryToThrow p s = (s, false)) := by
  intro frame s r p
  refine ⟨?_, ?_, fun h => bully_tryToThrow_refused_when_spent p s h⟩
  · intro hg hc hex
    simp only [Bully.guardBlocked, Bool.or_eq_false_iff] at hg
    obtain ⟨⟨hd, ha⟩, hb⟩ := hg
    have ha' : s.active = true := by simpa using ha
    have hb' : s.hasBody = true := by simpa using hb
    unfold Bully.update
    simp [ha', hc, hex, Bully.startWaiting, Bully.guardBlocked, hd, hb']
  · intro hg
    simp only [Bully.guardBlocked, Bool.or_eq_false_iff] at hg
    obtain ⟨⟨hd, ha⟩, hb⟩ := hg
    cases r <;>
      simp [Bully.prepareReentry, Bully.startEntering, Bully.guardBlocked,
        specSpawnX, Bully.SPAWN_OFFSET, hd, ha, hb]

/-- Witness for C7: a concrete charging Bully past the left threshold of the
unscrolled frame goes straight to waiting, and a concrete re-entry from the
right lands at the camera-relative 0 + 800 + 100. -/
theorem attacking_exit_transitions_to_waiting_witness :
    ((Bully.update ⟨0, 800⟩ true bullyChargeMid).1).currentState
        = Bully.Phase.waiting
    ∧ ((Bully.prepareReentry ⟨0, 800⟩ true bullyChargeMid).1).x = 900 := by
  constructor
  · exact ((attacking_exit_transitions_to_waiting ⟨0, 800⟩ bullyChargeMid
      true true).1 (by decide) rfl (by decide)).1
  · rw [((attacking_exit_transitions_to_waiting ⟨0, 800⟩ bullyChargeMid
      true true).2.1 (by decide)).2.1]
    decide

/-- Counterexample to C7 as stated: crossing the exit threshold from the
attacking state transitions straight to waiting, never to the exiting state
(startExiting is dead code in both classes), and exhausting the attack budget
leaves the entity in the attacking state, merely refusing the throw. -/
theorem attacking_exit_skips_exiting_state :
    ((Bully.update ⟨0, 800⟩ true bullyChargeMid).1).currentState
        = Bully.Phase.waiting
    ∧ Bully.Phase.waiting ≠ Bully.Phase.exiting
    ∧ (Bully.tryToThrow true bullyBudgetSpent).1.currentState
        = Bully.Phase.charging
    ∧ ((OldMan.update ⟨0, 800⟩ true 0 omPatrolFar).1).currentState
        = OldMan.Phase.waiting
    ∧ OldMan.Phase.waiting ≠ OldMan.Phase.exiting := by
  decide

/-- C8 (amended).  Attacks are issued strictly while in the attack state for
both archetypes (the throw callbacks refuse in any other state), on repeating
timers with the configured intervals; the fast archetype fires an immediate
attack when the charge-start callback enters charging; the slow archetype
fires no immediate attack on entering patrolling — startPatrolling leaves the
newspaper count unchanged, so its first attack comes only one full interval
later — and none on resumption from back pain. -/
theorem attacks_fixed_interval_strictly_in_attack_state :
    ∀ (sB : Bully.State) (sO : OldMan.State) (p : Bool),
      (sB.currentState ≠ .charging → Bully.tryToThrow p sB = (sB, false))
      ∧ (sO.currentState ≠ .patrolling →
          OldMan.tryToThrowNewspaper p sO = (sO, false))
      ∧ ((Bully.startCharging p sB).2.1
          = [Bully.Timer.throwRepeat Bully.THROW_INTERVAL])
      ∧ ((OldMan.startPatrolling sO).2
          = [OldMan.Timer.throwRepeat OldMan.THROW_INTERVAL,
             OldMan.Timer.phase])
      ∧ (((OldMan.startPatrolling sO).1).newspapers = sO.newspapers)
      ∧ (((OldMan.recoverFromBackPain sO).1).newspapers = sO.newspapers)
      ∧ (Bully.guardBlocked sB = false → sB.throwCount = 0 →
          (Bully.chargeStartCallback true sB).2.2 = true) := by
  intro sB sO p
  refine ⟨?_, ?_, rfl, rfl, rfl, rfl, ?_⟩
  · intro h
    rcases Bool.eq_false_or_eq_true (sB.isDestroyed || !sB.active)
        with h1 | h1 <;>
      simp [Bully.tryToThrow, h1, h]
  · intro h
    simp [OldMan.tryToThrowNewspaper, h]
  · intro hg hc
    simp only [Bully.guardBlocked, Bool.or_eq_false_iff] at hg
    obtain ⟨⟨hd, ha⟩, hb⟩ := hg
    simp [Bully.chargeStartCallback, Bully.startCharging, Bully.tryToThrow,
      Bully.guardBlocked, Bully.MAX_THROWS, hd, ha, hb, hc]

/-- Witness for C8: a concrete waiting Bully refuses to throw, and a concrete
fresh entering Bully fires its immediate attack when the charge-start
callback runs. -/
theorem attacks_fixed_interval_witness :
    Bully.tryToThrow true bullyWaiting = (bullyWaiting, false)
    ∧ (Bully.chargeStartCallback true bullyEnterDone).2.2 = true := by
  constructor
  · exact (attacks_fixed_interval_strictly_in_attack_state bullyWaiting
      omEnterDone true).1 (by decide)
  · exact (attacks_fixed_interval_strictly_in_attack_state bullyEnterDone
      omEnterDone true).2.2.2.2.2.2 (by decide) (by decide)

/-- Counterexample to C8 as stated: the slow archetype fires no immediate
attack upon entering its attack state — startPatrolling flips the state to
patrolling with zero newspapers thrown — while the fast archetype does
(contrast clause), so the immediate-attack part of the claim fails for every
NPC archetype. -/
theorem oldman_no_immediate_attack_on_attack_entry :
    ((OldMan.startPatrolling omEnterDone).1).currentState
        = OldMan.Phase.patrolling
    ∧ ((OldMan.startPatrolling omEnterDone).1).newspapers = 0
    ∧ (Bully.chargeStartCallback true bullyEnterDone).2.2 = true := by
  decide

/-- C9 (amended).  When the recovery timer fires the slow archetype returns
from the stall to the patrolling state and resumes moving in its unchanged
patrol direction; it schedules nothing and leaves the throw-timer flag as the
stall left it (stopped), so no further interval attacks occur that traversal;
and with the per-patrol stall counter spent, any further phase-timer fire is
refused outright. -/
theorem oldman_recovery_returns_without_throw_timer :
    ∀ s : OldMan.State,
      ((OldMan.recoverFromBackPain s).1).currentState
          = OldMan.Phase.patrolling
      ∧ ((OldMan.recoverFromBackPain s).1).velocityX
          = s.patrolDirection * OldMan.PATROL_SPEED
      ∧ ((OldMan.recoverFromBackPain s).1).throwTimerActive
          = s.throwTimerActive
      ∧ (OldMan.recoverFromBackPain s).2 = []
      ∧ (s.backPainThisPatrol = 0 →
          ((OldMan.startBackPain s).1).throwTimerActive = false)
      ∧ (OldMan.MAX_BACKPAIN_PER_PATROL <= s.backPainThisPatrol →
          OldMan.startBackPain s = (s, [])) := by
  intro s
  refine ⟨rfl, rfl, rfl, rfl, ?_, ?_⟩
  · intro h
    simp [OldMan.startBackPain, OldMan.MAX_BACKPAIN_PER_PATROL, h]
  · intro h
    simp [OldMan.startBackPain, if_pos h]

/-- Witness for C9: recovery from a concrete stalled state returns to
patrolling, and a further phase fire with the stall budget spent is a no-op. -/
theorem oldman_recovery_witness :
    ((OldMan.recoverFromBackPain omBackpain).1).currentState
        = OldMan.Phase.patrolling
    ∧ OldMan.startBackPain omBackpain = (omBackpain, []) := by
  exact ⟨(oldman_recovery_returns_without_throw_timer omBackpain).1,
    (oldman_recovery_returns_without_throw_timer omBackpain).2.2.2.2.2
      (by decide)⟩

/-- Counterexample to C9 as stated: the stall stops the repeating throw
timer, and recovery returns to patrolling without restarting it and without
scheduling anything, so interval-driven attacks are not issued again after
the stall even though the entity is back in the attacking state. -/
theorem oldman_recovery_no_attacks_resume :
    omPatrolStart.throwTimerActive = true
    ∧ ((OldMan.startBackPain omPatrolStart).1).throwTimerActive = false
    ∧ ((OldMan.recoverFromBackPain
          (OldMan.startBackPain omPatrolStart).1).1).currentState
        = OldMan.Phase.patrolling
    ∧ ((OldMan.recoverFromBackPain
          (OldMan.startBackPain omPatrolStart).1).1).throwTimerActive = false
    ∧ (OldMan.recoverFromBackPain (OldMan.startBackPain omPatrolStart).1).2
        = [] := by
  decide
